import Mathlib

/- Shallow embedding of the terraform-provider-encryptedssm repository
   (package encryptedssm: util.go, resource_encryptedssm_parameter.go,
   provider.go).  External collaborators (the AWS SSM parameter store, the
   KMS decryption service, the terraform-plugin-sdk retry combinator and
   the ResourceData accessors) are modelled as explicit inputs and oracle
   fields; all repository code is translated directly from the source. -/

/-- Character-list version of strings.HasPrefix: the first list is an initial
segment of the second. -/
def isLeadingOf : List Char → List Char → Bool
  | [], _ => true
  | _ :: _, [] => false
  | a :: as, b :: bs => a == b && isLeadingOf as bs

/-- Character-list version of strings.Contains: the first list occurs
contiguously inside the second. -/
def containsChars (sub : List Char) : List Char → Bool
  | [] => isLeadingOf sub []
  | b :: bs => isLeadingOf sub (b :: bs) || containsChars sub bs

/-- Model of strings.HasPrefix s p (p is a leading segment of s). -/
def strHasLead (s p : String) : Bool := isLeadingOf p.data s.data

/-- Model of strings.Contains s sub. -/
def strContainsB (s sub : String) : Bool := containsChars sub.data s.data

/-- Model of an awserr.Error value: an AWS service error with a code and a
message (the request-id and original-error parts are irrelevant here). -/
structure AwsErr where
  code : String
  message : String
deriving DecidableEq

/-- Model of a Go error value as it flows through this package.  aws is an
awserr.Error; plain is an error built from a bare string (errors.New or
fmt.Errorf with %s verbs only); wrap is fmt.Errorf with a trailing %w verb
(unwrappable via errors.As/Unwrap); timeoutErr is *resource.TimeoutError
from the SDK retry combinator, carrying its LastError field (here reduced
to the message of that error, since the code only tests it against nil). -/
inductive GoErr where
  | aws : AwsErr → GoErr
  | plain : String → GoErr
  | wrap : String → GoErr → GoErr
  | timeoutErr : Option String → GoErr
deriving DecidableEq

/-- Error message of a GoErr, as err.Error() would render it (awserr renders
as "code: message"; fmt.Errorf("%s: %w", ...) concatenates). -/
def goErrMsg : GoErr → String
  | .aws e => e.code ++ ": " ++ e.message
  | .plain s => s
  | .wrap m e => m ++ ": " ++ goErrMsg e
  | .timeoutErr _ => "timeout while waiting for state"

/-- Model of isAWSErr from util.go, i.e. tfawserr.ErrMessageContains: the
error unwraps (errors.As) to an awserr.Error whose Code() equals code and
whose Message() contains message. -/
def isAWSErr : GoErr → String → String → Bool
  | .aws e, code, message => e.code == code && strContainsB e.message message
  | .wrap _ inner, code, message => isAWSErr inner code message
  | _, _, _ => false

/-- Constant ssm.ErrCodeParameterNotFound from the AWS SDK. -/
def ErrCodeParameterNotFound : String := "ParameterNotFound"

/-- Constant ssm.ParameterTierStandard from the AWS SDK. -/
def ParameterTierStandard : String := "Standard"

/-- Constant AwsTagKeyPrefix from util.go (named awsTagKeyPfx here). -/
def awsTagKeyPfx : String := "aws:"

/-- TagData from provider.go: a tag value plus optional additional boolean
and string fields.  The Go maps map[string]*bool / map[string]*string are
embedded as association lists; Go pointers become Option. -/
structure TagData where
  AdditionalBoolFields : List (String × Option Bool)
  AdditionalStringFields : List (String × Option String)
  Value : Option String
deriving DecidableEq

/-- KeyValueTags from provider.go: map[string]*TagData, embedded as an
association list from key to Option TagData (nil pointer = none). -/
abbrev KeyValueTags := List (String × Option TagData)

/-- Lookup in an association list (Go map indexing m[k]). -/
def lookupA {α : Type} : List (String × α) → String → Option α
  | [], _ => none
  | kv :: rest, k => if kv.1 == k then some kv.2 else lookupA rest k

/-- Key-membership in an association list (Go map two-valued lookup ok). -/
def containsKeyA {α : Type} : List (String × α) → String → Bool
  | [], _ => false
  | kv :: rest, k => kv.1 == k || containsKeyA rest k

/-- Well-formedness of an association list as the image of a Go map: no
duplicate keys. -/
def nodupKeysB {α : Type} : List (String × α) → Bool
  | [] => true
  | kv :: rest => !containsKeyA rest kv.1 && nodupKeysB rest

/-- One inclusion of reflect.DeepEqual on Go maps embedded as association
lists: every entry of the first list is bound to the same value in the
second. -/
def subMapA {α : Type} [DecidableEq α] (a b : List (String × α)) : Bool :=
  a.all fun kv => lookupA b kv.1 == some kv.2

/-- reflect.DeepEqual on Go maps embedded as association lists: equal key
sets with equal values (order-insensitive, as Go maps are unordered). -/
def mapEqualA {α : Type} [DecidableEq α] (a b : List (String × α)) : Bool :=
  subMapA a b && subMapA b a

/-- TagData.Equal receiver body from util.go for non-nil receivers:
DeepEqual on AdditionalBoolFields, AdditionalStringFields and Value. -/
def tagDataEqualCore (td other : TagData) : Bool :=
  mapEqualA td.AdditionalBoolFields other.AdditionalBoolFields &&
  mapEqualA td.AdditionalStringFields other.AdditionalStringFields &&
  td.Value == other.Value

/-- TagData.Equal from util.go including the nil-pointer cases: both nil is
equal, exactly one nil is unequal, otherwise compare the three groups. -/
def tagDataEqual : Option TagData → Option TagData → Bool
  | none, none => true
  | some td, some other => tagDataEqualCore td other
  | _, _ => false

/-- KeyValueTags.IgnoreAws from util.go: keep only keys without the
cloud-reserved "aws:" key prefix marker. -/
def KeyValueTags.IgnoreAws (tags : KeyValueTags) : KeyValueTags :=
  tags.filter fun kv => !(strHasLead kv.1 awsTagKeyPfx)

/-- IgnoreConfig from provider.go: explicit keys and key-prefix markers to
drop when presenting observed tags. -/
structure IgnoreConfig where
  Keys : KeyValueTags
  KeyPrefixes : KeyValueTags

/-- KeyValueTags.IgnorePrefixes from util.go: drop keys led by any key of
the filter set. -/
def KeyValueTags.IgnorePrefixes (tags ignoreTagPrefixes : KeyValueTags) : KeyValueTags :=
  tags.filter fun kv => !(ignoreTagPrefixes.any fun pfx => strHasLead kv.1 pfx.1)

/-- KeyValueTags.Ignore from util.go: drop keys present in the filter set. -/
def KeyValueTags.Ignore (tags ignoreTags : KeyValueTags) : KeyValueTags :=
  tags.filter fun kv => !(containsKeyA ignoreTags kv.1)

/-- KeyValueTags.IgnoreConfig method from util.go (named applyIgnoreConfig
here to avoid clashing with the IgnoreConfig structure): nil config returns
the tags unchanged, otherwise filter by prefixes then by explicit keys. -/
def KeyValueTags.applyIgnoreConfig (tags : KeyValueTags) : Option IgnoreConfig → KeyValueTags
  | none => tags
  | some config => KeyValueTags.Ignore (KeyValueTags.IgnorePrefixes tags config.KeyPrefixes) config.Keys

/-- KeyValueTags.Map from util.go: tag keys mapped to their values, with a
nil TagData pointer or nil Value pointer rendered as the empty string. -/
def KeyValueTags.Map (tags : KeyValueTags) : List (String × String) :=
  tags.map fun kv =>
    (kv.1, match kv.2 with
           | none => ""
           | some td => match td.Value with
                        | none => ""
                        | some v => v)

/-- KeyValueTags.Keys from util.go. -/
def KeyValueTags.Keys (tags : KeyValueTags) : List String :=
  tags.map Prod.fst

/-- KeyValueTags.SsmTags from util.go: the ssm.Tag list built from Map(). -/
def KeyValueTags.SsmTags (tags : KeyValueTags) : List (String × String) :=
  KeyValueTags.Map tags

/-- KeyValueTags.Removed from util.go: entries of the receiver whose key is
absent from newTags, with the receiver's values. -/
def KeyValueTags.Removed (tags newTags : KeyValueTags) : KeyValueTags :=
  tags.filter fun kv => !(containsKeyA newTags kv.1)

/-- KeyValueTags.Updated from util.go: entries of newTags whose key is
absent from the receiver or whose TagData fails TagData.Equal against the
receiver's entry. -/
def KeyValueTags.Updated (tags newTags : KeyValueTags) : KeyValueTags :=
  newTags.filter fun kv =>
    match lookupA tags kv.1 with
    | none => true
    | some oldV => !(tagDataEqual oldV kv.2)

example : KeyValueTags.Removed [("a", none), ("b", none)] [("b", none)] = [("a", none)] := by decide

example : KeyValueTags.Updated [("a", some ⟨[], [], some "x"⟩)] [("a", some ⟨[], [], some "y"⟩), ("c", none)] =
    [("a", some ⟨[], [], some "y"⟩), ("c", none)] := by decide

/-- Responses of the two remote tag mutation calls used by SsmUpdateTags
(RemoveTagsFromResource and AddTagsToResource), supplied as oracles. -/
structure TagUpdateEnv where
  removeResult : Except GoErr Unit
  addResult : Except GoErr Unit

/-- Trace of the remote tag calls SsmUpdateTags actually issued: the TagKeys
argument of each RemoveTagsFromResource call and the Tags argument of each
AddTagsToResource call. -/
structure TagUpdateTrace where
  removeCalls : List (List String)
  addCalls : List (List (String × String))
deriving DecidableEq

/-- SsmUpdateTags from util.go.  oldTagsMap/newTagsMap arrive here already
converted through New (which on map[string]*TagData is an entrywise copy).
Returns the Go error result together with the trace of remote calls. -/
def SsmUpdateTags (identifier : String) (oldTags newTags : KeyValueTags)
    (env : TagUpdateEnv) : Except GoErr Unit × TagUpdateTrace :=
  let removedTags := KeyValueTags.Removed oldTags newTags
  let step1 : Except GoErr Unit × TagUpdateTrace :=
    if removedTags.length > 0 then
      match env.removeResult with
      | .error e =>
        (.error (.wrap ("error untagging resource (" ++ identifier ++ ")") e),
         ⟨[KeyValueTags.Keys (KeyValueTags.IgnoreAws removedTags)], []⟩)
      | .ok _ => (.ok (), ⟨[KeyValueTags.Keys (KeyValueTags.IgnoreAws removedTags)], []⟩)
    else (.ok (), ⟨[], []⟩)
  match step1 with
  | (.error e, tr) => (.error e, tr)
  | (.ok _, tr) =>
    let updatedTags := KeyValueTags.Updated oldTags newTags
    if updatedTags.length > 0 then
      match env.addResult with
      | .error e =>
        (.error (.wrap ("error tagging resource (" ++ identifier ++ ")") e),
         ⟨tr.removeCalls, [KeyValueTags.SsmTags (KeyValueTags.IgnoreAws updatedTags)]⟩)
      | .ok _ => (.ok (), ⟨tr.removeCalls, [KeyValueTags.SsmTags (KeyValueTags.IgnoreAws updatedTags)]⟩)
    else (.ok (), tr)

/-- Basic fetch response ssm.GetParameterOutput.Parameter: the fields the
Read path dereferences. -/
structure Param where
  name : String
  value : String
  ptype : String
  version : Int
  arn : String
deriving DecidableEq

/-- Describe response detail record ssm.ParameterMetadata: the fields the
Read path copies into state (pointers become Option). -/
structure ParamDetail where
  keyId : Option String
  description : Option String
  tier : Option String
  allowedPattern : Option String
  dataType : Option String
deriving DecidableEq

/-- Inputs the Read path takes from the ResourceData d: the identity marker
d.Id(), d.IsNewResource(), and the declared data_type, encrypted_value and
encryption_key attributes. -/
structure ReadInput where
  id : String
  isNew : Bool
  dataType : String
  encrypted_value : String
  encryption_key : String

/-- Oracles for the external collaborators the Read path calls: the
successive GetParameter responses available inside the bounded retry window
(fetchTrace), the response to the one last-chance GetParameter issued after
a timeout (finalFetch), the base64 decode of the declared encrypted_value,
the raw KMS Decrypt response, the DescribeParameters response (an outer
none models a nil response pointer; inner none a nil element pointer), the
ListTagsForResource response, and the provider-level ignore-tags config. -/
structure ReadEnv where
  fetchTrace : List (Except GoErr Param)
  finalFetch : Except GoErr Param
  decodeResult : Except GoErr (List Nat)
  decryptResult : Except GoErr String
  describeResult : Except GoErr (Option (List (Option ParamDetail)))
  listTagsResult : Except GoErr KeyValueTags
  ignoreConfig : Option IgnoreConfig

/-- Observed state the Read path writes back into the ResourceData on the
successful (non-removed) path. -/
structure ObservedState where
  name : String
  ptype : String
  encrypted_value : String
  version : Int
  keyId : Option String
  description : Option String
  tier : String
  allowedPattern : Option String
  dataType : Option String
  tags : List (String × String)
  arn : String
deriving DecidableEq

/-- Outcome of a successful Read: either the entry vanished remotely and the
identity marker was cleared (d.SetId("") then return nil), or the observed
state was populated. -/
inductive ReadOutcome where
  | removedFromState : ReadOutcome
  | observed : ObservedState → ReadOutcome
deriving DecidableEq

/-- Classification of one GetParameter attempt inside the resource.Retry
closure of resourceAwsSsmParameterRead (lines 123-136): a not-found error on
a new resource whose declared data_type is "aws:ec2:image" is retryable, any
other error is non-retryable, and a nil error resolves the loop. -/
inductive RetryClass where
  | resolveOk : RetryClass
  | retryable : RetryClass
  | nonRetryable : RetryClass
deriving DecidableEq

/-- The retry predicate of the Read fetch loop, translated from the closure
body passed to resource.Retry. -/
def classifyFetch (isNew : Bool) (dataType : String) : Except GoErr Param → RetryClass
  | .ok _ => .resolveOk
  | .error e =>
    if isAWSErr e ErrCodeParameterNotFound "" && isNew && dataType == "aws:ec2:image" then
      .retryable
    else
      .nonRetryable

/-- Model of the external resource.Retry combinator driving the fetch
closure: it walks the responses the store produces inside the 2-minute
window, stops at the first attempt that resolves or fails non-retryably,
and, per the combinator's contract, reports a *resource.TimeoutError with
no last error when the window is exhausted while every attempt was still
retryable.  Returns the final (resp, err) pair together with the number of
GetParameter calls performed. -/
def retryPhase (isNew : Bool) (dataType : String) : List (Except GoErr Param) → Except GoErr Param × Nat
  | [] => (.error (.timeoutErr none), 0)
  | r :: rest =>
    match classifyFetch isNew dataType r with
    | .retryable =>
      let p := retryPhase isNew dataType rest
      (p.1, p.2 + 1)
    | _ => (r, 1)

/-- Model of isResourceTimeoutError from util.go applied to the (resp, err)
outcome of the loop: err is a *resource.TimeoutError whose LastError is
nil. -/
def isResourceTimeoutError : Except GoErr Param → Bool
  | .error (.timeoutErr none) => true
  | _ => false

/-- Lines 122-140 of resourceAwsSsmParameterRead: run the bounded retry
loop, and on a timeout perform exactly one more unconditional GetParameter
whose outcome replaces the loop's.  Returns the final (resp, err) and the
total number of GetParameter calls. -/
def resolvedFetch (inp : ReadInput) (env : ReadEnv) : Except GoErr Param × Nat :=
  let p := retryPhase inp.isNew inp.dataType env.fetchTrace
  if isResourceTimeoutError p.1 then (env.finalFetch, p.2 + 1) else p

/-- Model of kmsDecrypt from resource_encryptedssm_parameter.go: pass the
KMS client response through, flattening any error into a plain errors.New
of its rendered message. -/
def kmsDecrypt : Except GoErr String → Except GoErr String
  | .ok p => .ok p
  | .error e => .error (.plain (goErrMsg e))

/-- The Secret Value Comparator branch of the Read path (lines 171-176):
keep the declared ciphertext when the decrypted plaintext equals the remote
value, otherwise substitute the fixed sentinel string. -/
def comparatorValue (declared plaintext remoteValue : String) : String :=
  if plaintext == remoteValue then declared else "Outdated sensitive value"

/-- First non-nil element check on the describe response (line 197):
returns the detail record unless the response is nil, empty, or its first
element is nil. -/
def describeHead : Option (List (Option ParamDetail)) → Option ParamDetail
  | none => none
  | some [] => none
  | some (none :: _) => none
  | some (some d :: _) => some d

/-- Lines 142-225 of resourceAwsSsmParameterRead: everything after the
fetch loop, processing the final (resp, err) pair. -/
def processFetch (inp : ReadInput) (env : ReadEnv) : Except GoErr Param → Except GoErr ReadOutcome
  | .error e =>
    if isAWSErr e ErrCodeParameterNotFound "" && !inp.isNew then
      .ok .removedFromState
    else
      .error (.wrap ("error reading SSM Parameter (" ++ inp.id ++ ")") e)
  | .ok param =>
    match env.decodeResult with
    | .error e => .error e
    | .ok _ =>
      match kmsDecrypt env.decryptResult with
      | .error e => .error (.plain ("Error decrypting with KMS: " ++ goErrMsg e))
      | .ok plaintext =>
        let encrypted_value := comparatorValue inp.encrypted_value plaintext param.value
        match env.describeResult with
        | .error e => .error (.plain ("error describing SSM parameter: " ++ goErrMsg e))
        | .ok resp =>
          match describeHead resp with
          | none => .ok .removedFromState
          | some detail =>
            let tier := match detail.tier with
                        | none => ParameterTierStandard
                        | some t => t
            match env.listTagsResult with
            | .error e =>
              .error (.plain ("error listing tags for SSM Parameter (" ++ param.name ++ "): " ++ goErrMsg e))
            | .ok tags =>
              .ok (.observed
                { name := param.name
                  ptype := param.ptype
                  encrypted_value := encrypted_value
                  version := param.version
                  keyId := detail.keyId
                  description := detail.description
                  tier := tier
                  allowedPattern := detail.allowedPattern
                  dataType := detail.dataType
                  tags := KeyValueTags.Map
                    (KeyValueTags.applyIgnoreConfig (KeyValueTags.IgnoreAws tags) env.ignoreConfig)
                  arn := param.arn })

/-- resourceAwsSsmParameterRead from resource_encryptedssm_parameter.go,
returning its Go result together with the total number of GetParameter
calls issued. -/
def resourceAwsSsmParameterRead (inp : ReadInput) (env : ReadEnv) : Except GoErr ReadOutcome × Nat :=
  let p := resolvedFetch inp env
  (processFetch inp env p.1, p.2)

/-- shouldUpdateSsmParameter from util.go: the caller's explicit overwrite
preference when set (d.GetOkExists is modelled as the tri-state Option),
otherwise true exactly when the resource is not new. -/
def shouldUpdateSsmParameter (overwrite : Option Bool) (isNewResource : Bool) : Bool :=
  match overwrite with
  | some value => value
  | none => !isNewResource

/-- resourceAwsSsmParameterDelete from resource_encryptedssm_parameter.go:
one DeleteParameter call whose error, if any, is wrapped and returned.
Returns the Go result and the number of DeleteParameter calls issued. -/
def resourceAwsSsmParameterDelete (id : String) (deleteResult : Except GoErr Unit) :
    Except GoErr Unit × Nat :=
  match deleteResult with
  | .error e => (.error (.plain ("error deleting SSM Parameter (" ++ id ++ "): " ++ goErrMsg e)), 1)
  | .ok _ => (.ok (), 1)

/-- Desired-state inputs the Put path takes from the ResourceData d.
data_type is d.GetOk semantics (none when unset or empty);
description_change is the new description when d.HasChange reports a
change; overwrite is the tri-state d.GetOkExists; tags_change is the
(old, new) pair when d.HasChange("tags") reports a change. -/
structure PutRecord where
  name : String
  ptype : String
  tier : String
  encrypted_value : String
  encryption_key : String
  allowed_pattern : String
  data_type : Option String
  description_change : Option String
  overwrite : Option Bool
  isNew : Bool
  tags_change : Option (KeyValueTags × KeyValueTags)

/-- One ssm.PutParameterInput payload as sent to the remote store. -/
structure PutPayload where
  name : String
  ptype : String
  tier : Option String
  value : String
  overwrite : Bool
  allowedPattern : String
  dataType : Option String
  description : Option String
  keyId : String
deriving DecidableEq

/-- The PutParameterInput built at lines 263-281 from the record and the
decrypted plaintext (Tier is always set on this first payload). -/
def mkPutPayload (r : PutRecord) (plaintext : String) : PutPayload :=
  { name := r.name
    ptype := r.ptype
    tier := some r.tier
    value := plaintext
    overwrite := shouldUpdateSsmParameter r.overwrite r.isNew
    allowedPattern := r.allowed_pattern
    dataType := r.data_type
    description := r.description_change
    keyId := r.encryption_key }

/-- Oracles for the external collaborators the Put path calls: the base64
decode of the declared encrypted_value, the raw KMS Decrypt response, the
response to the first PutParameter call, the response to the tier-omitted
retry call, the tag mutation responses, and the environment of the
trailing Read. -/
structure PutEnv where
  decodeResult : Except GoErr (List Nat)
  decryptResult : Except GoErr String
  putFirst : Except GoErr Unit
  putRetryResult : Except GoErr Unit
  tagEnv : TagUpdateEnv
  readEnv : ReadEnv

/-- The ReadInput of the trailing Read issued at the end of Put: the id was
just set to the name, IsNewResource is unchanged, and the declared
attributes are read back from d. -/
def putReadInput (r : PutRecord) : ReadInput :=
  { id := r.name
    isNew := r.isNew
    dataType := match r.data_type with
                | some v => v
                | none => ""
    encrypted_value := r.encrypted_value
    encryption_key := r.encryption_key }

/-- Tag reconciliation step of Put (lines 295-302): when the tags changed,
run SsmUpdateTags and wrap its error. -/
def putTagPhase (r : PutRecord) (env : PutEnv) : Except GoErr Unit :=
  match r.tags_change with
  | none => .ok ()
  | some tc =>
    match (SsmUpdateTags r.name tc.1 tc.2 env.tagEnv).1 with
    | .error e =>
      .error (.plain ("error updating SSM Parameter (" ++ r.name ++ ") tags: " ++ goErrMsg e))
    | .ok _ => .ok ()

/-- Tail of Put after a successful remote write (lines 295-306): reconcile
tags, record the identity (d.SetId(name)) and finish with the trailing
Read; calls is the list of PutParameter payloads already sent. -/
def putFinish (r : PutRecord) (env : PutEnv) (calls : List PutPayload) :
    Except GoErr ReadOutcome × List PutPayload :=
  match putTagPhase r env with
  | .error e => (.error e, calls)
  | .ok _ => ((resourceAwsSsmParameterRead (putReadInput r) env.readEnv).1, calls)

/-- resourceAwsSsmParameterPut from resource_encryptedssm_parameter.go,
returning its Go result together with the list of PutParameter payloads
sent to the store, in order.  The single error check following the
optional tier-omitted retry (lines 284-293) appears here as a case on the
outcome of whichever PutParameter call ran last. -/
def resourceAwsSsmParameterPut (r : PutRecord) (env : PutEnv) :
    Except GoErr ReadOutcome × List PutPayload :=
  match env.decodeResult with
  | .error e => (.error e, [])
  | .ok _ =>
    match kmsDecrypt env.decryptResult with
    | .error e => (.error (.plain ("Error decrypting with KMS: " ++ goErrMsg e)), [])
    | .ok plaintext =>
      let payload := mkPutPayload r plaintext
      match env.putFirst with
      | .ok _ => putFinish r env [payload]
      | .error e =>
        if isAWSErr e "ValidationException" "Tier is not supported" then
          match env.putRetryResult with
          | .ok _ => putFinish r env [payload, { payload with tier := none }]
          | .error e2 =>
            (.error (.plain ("error creating SSM parameter: " ++ goErrMsg e2)),
             [payload, { payload with tier := none }])
        else
          (.error (.plain ("error creating SSM parameter: " ++ goErrMsg e)), [payload])

/-- Concrete not-found error used by several witnesses. -/
def notFoundErr : GoErr := .aws ⟨"ParameterNotFound", "parameter missing"⟩

/-- Concrete fetch response used by several witnesses. -/
def sampleParam : Param :=
  { name := "/a/b", value := "pw", ptype := "SecureString", version := 3, arn := "arn:aws:ssm:p" }

/-- Concrete describe detail used by several witnesses. -/
def sampleDetail : ParamDetail :=
  { keyId := some "key", description := some "d", tier := none,
    allowedPattern := none, dataType := some "text" }

/-- Concrete read environment on which every collaborator succeeds. -/
def happyReadEnv : ReadEnv :=
  { fetchTrace := [.ok sampleParam]
    finalFetch := .ok sampleParam
    decodeResult := .ok [1, 2, 3]
    decryptResult := .ok "pw"
    describeResult := .ok (some [some sampleDetail])
    listTagsResult := .ok []
    ignoreConfig := none }

/-- Concrete read input for a newly created machine-image record. -/
def inpC3 : ReadInput :=
  { id := "/a/b", isNew := true, dataType := "aws:ec2:image",
    encrypted_value := "QUJD", encryption_key := "key" }

/-- Concrete read environment whose in-window responses are all the
retryable not-found error, so the loop can only exhaust the window. -/
def envC3 : ReadEnv :=
  { happyReadEnv with fetchTrace := [.error notFoundErr, .error notFoundErr] }

/-- Concrete tag environment on which both remote tag calls succeed. -/
def happyTagEnv : TagUpdateEnv := { removeResult := .ok (), addResult := .ok () }

/-- Concrete already-managed record with no explicit overwrite preference. -/
def rC2 : PutRecord :=
  { name := "/a/b", ptype := "SecureString", tier := "Standard",
    encrypted_value := "QUJD", encryption_key := "key", allowed_pattern := "",
    data_type := none, description_change := none, overwrite := none,
    isNew := false, tags_change := none }

/-- Concrete put environment on which every collaborator succeeds. -/
def envPutHappy : PutEnv :=
  { decodeResult := .ok [1], decryptResult := .ok "pw", putFirst := .ok (),
    putRetryResult := .ok (), tagEnv := happyTagEnv, readEnv := happyReadEnv }

/-- Concrete old tag map for the C6 witness. -/
def oldC6 : KeyValueTags := [("a", some ⟨[], [], some "x"⟩), ("gone", none)]

/-- Concrete new tag map for the C6 witness. -/
def newC6 : KeyValueTags := [("a", some ⟨[], [], some "x"⟩), ("c", some ⟨[], [], some "y"⟩)]

/-- Well-formedness of a KeyValueTags value as the image of the Go nested
maps: no duplicate outer keys and no duplicate keys inside any TagData
field map. -/
def wfTagsB (l : KeyValueTags) : Bool :=
  nodupKeysB l && l.all fun kv =>
    match kv.2 with
    | none => true
    | some td => nodupKeysB td.AdditionalBoolFields && nodupKeysB td.AdditionalStringFields

/-- Concrete well-formed tag map for the C10 witness. -/
def tagsC10 : KeyValueTags :=
  [("env", some ⟨[], [], some "prod"⟩), ("team", some ⟨[], [], some "x"⟩)]

/-- Concrete read input for an already-managed record. -/
def inpC1 : ReadInput :=
  { id := "/a/b", isNew := false, dataType := "",
    encrypted_value := "QUJD", encryption_key := "key" }

/-- Observed state Read produces on inpC1 with every collaborator
succeeding and the plaintext matching the remote value. -/
def obsC1 : ObservedState :=
  { name := "/a/b", ptype := "SecureString", encrypted_value := "QUJD",
    version := 3, keyId := some "key", description := some "d",
    tier := "Standard", allowedPattern := none, dataType := some "text",
    tags := [], arn := "arn:aws:ssm:p" }

/-- Concrete read input whose declared ciphertext cannot be decrypted. -/
def inpC4 : ReadInput :=
  { id := "/a/b", isNew := false, dataType := "",
    encrypted_value := "QUJD", encryption_key := "wrong-key" }

/-- Concrete read environment where the fetch succeeds but the decryption
service denies access. -/
def envC4 : ReadEnv :=
  { happyReadEnv with
    decryptResult := .error (.aws ⟨"AccessDeniedException", "access denied"⟩) }

/-- Concrete put environment where the decryption service denies access. -/
def penvC4 : PutEnv :=
  { envPutHappy with
    decryptResult := .error (.aws ⟨"AccessDeniedException", "access denied"⟩) }

/-- Concrete put environment whose first write is rejected with the
tier-unsupported validation error and whose tier-free retry succeeds. -/
def envC5 : PutEnv :=
  { envPutHappy with
    putFirst := .error (.aws ⟨"ValidationException", "Tier is not supported"⟩) }

/-- Concrete read environment whose only in-window fetch response is the
not-found error. -/
def envC7 : ReadEnv := { happyReadEnv with fetchTrace := [.error notFoundErr] }

theorem retryPhase_exhausted (isNew : Bool) (dt : String) (trace : List (Except GoErr Param))
    (h : ∀ x ∈ trace, classifyFetch isNew dt x = .retryable) :
    retryPhase isNew dt trace = (.error (.timeoutErr none), trace.length) := by
  induction trace with
  | nil => rfl
  | cons r rest ih =>
    have hr : classifyFetch isNew dt r = .retryable := h r (List.mem_cons_self r rest)
    have ih2 := ih fun x hx => h x (List.mem_cons_of_mem r hx)
    simp [retryPhase, hr, ih2]

theorem retryPhase_stop (isNew : Bool) (dt : String) (r : Except GoErr Param)
    (rest : List (Except GoErr Param)) (h : classifyFetch isNew dt r ≠ .retryable) :
    retryPhase isNew dt (r :: rest) = (r, 1) := by
  cases hc : classifyFetch isNew dt r with
  | resolveOk => simp [retryPhase, hc]
  | retryable => exact absurd hc h
  | nonRetryable => simp [retryPhase, hc]

/-- Claim C8: inside Read's bounded retry loop, a fetch error is classified
retryable exactly when it is the distinguishable not-found error, the record
is newly created, and the declared data_type is "aws:ec2:image"; any fetch
error missing one of the three conditions is non-retryable and stops the
loop at once. -/
theorem C8_retry_classification (isNew : Bool) (dt : String) (e : GoErr)
    (rest : List (Except GoErr Param)) :
    (classifyFetch isNew dt (.error e) = .retryable ↔
       (isAWSErr e ErrCodeParameterNotFound "" = true ∧ isNew = true ∧ dt = "aws:ec2:image")) ∧
    (¬(isAWSErr e ErrCodeParameterNotFound "" = true ∧ isNew = true ∧ dt = "aws:ec2:image") →
       classifyFetch isNew dt (.error e) = .nonRetryable ∧
       retryPhase isNew dt (.error e :: rest) = (.error e, 1)) := by
  constructor
  · constructor
    · intro h
      by_contra hc
      have : classifyFetch isNew dt (.error e) = .nonRetryable := by
        simp only [classifyFetch]
        rw [if_neg]
        intro hall
        apply hc
        simp only [Bool.and_eq_true, beq_iff_eq] at hall
        exact ⟨hall.1.1, hall.1.2, hall.2⟩
      rw [h] at this
      exact RetryClass.noConfusion this
    · intro ⟨h1, h2, h3⟩
      simp [classifyFetch, h1, h2, h3]
  · intro hc
    have hnc : classifyFetch isNew dt (.error e) = .nonRetryable := by
      simp only [classifyFetch]
      rw [if_neg]
      intro hall
      apply hc
      simp only [Bool.and_eq_true, beq_iff_eq] at hall
      exact ⟨hall.1.1, hall.1.2, hall.2⟩
    exact ⟨hnc, retryPhase_stop isNew dt _ rest (by rw [hnc]; exact fun h => RetryClass.noConfusion h)⟩

/-- Witness for C8 at a concrete throttling error on a new machine-image
record: the conditions fail, the attempt is non-retryable and the loop
stops after this single fetch. -/
theorem C8_retry_classification_witness :
    classifyFetch true "aws:ec2:image" (.error (.aws ⟨"ThrottlingException", "slow down"⟩)) = .nonRetryable ∧
    retryPhase true "aws:ec2:image" [.error (.aws ⟨"ThrottlingException", "slow down"⟩)] =
      (.error (.aws ⟨"ThrottlingException", "slow down"⟩), 1) :=
  (C8_retry_classification true "aws:ec2:image" (.aws ⟨"ThrottlingException", "slow down"⟩) []).2
    (by decide)

/-- Claim C3: when the bounded retry loop around the fetch is exhausted by
the timeout (every response available inside the window was classified
retryable), exactly one additional unconditional fetch is performed, and
Read's outcome is exactly the processing of that final fetch response. -/
theorem C3_timeout_last_chance (inp : ReadInput) (env : ReadEnv)
    (h : ∀ x ∈ env.fetchTrace, classifyFetch inp.isNew inp.dataType x = .retryable) :
    (resourceAwsSsmParameterRead inp env).2 = env.fetchTrace.length + 1 ∧
    (resourceAwsSsmParameterRead inp env).1 = processFetch inp env env.finalFetch := by
  have h1 := retryPhase_exhausted inp.isNew inp.dataType env.fetchTrace h
  constructor <;>
    simp [resourceAwsSsmParameterRead, resolvedFetch, h1, isResourceTimeoutError]

/-- Witness for C3: with two retryable in-window responses the loop times
out, a third (final) fetch is issued, and Read's outcome is the processing
of that final response. -/
theorem C3_timeout_last_chance_witness :
    (resourceAwsSsmParameterRead inpC3 envC3).2 = 3 ∧
    (resourceAwsSsmParameterRead inpC3 envC3).1 = processFetch inpC3 envC3 envC3.finalFetch := by
  have h := C3_timeout_last_chance inpC3 envC3 (by decide)
  simpa [envC3, happyReadEnv] using h

/-- Claim C9: Delete issues exactly one delete-by-name call with no retry;
a successful remote delete returns success, and any failing remote delete
(whatever the error, including not-found) makes Delete return an error. -/
theorem C9_delete_single_fatal (id : String) (res : Except GoErr Unit) (e : GoErr) :
    (resourceAwsSsmParameterDelete id res).2 = 1 ∧
    (res = .ok () → (resourceAwsSsmParameterDelete id res).1 = .ok ()) ∧
    ((resourceAwsSsmParameterDelete id (.error e)).1 =
       .error (.plain ("error deleting SSM Parameter (" ++ id ++ "): " ++ goErrMsg e))) := by
  refine ⟨?_, ?_, rfl⟩
  · cases res <;> rfl
  · intro h
    rw [h]
    rfl

/-- Witness for C9 at the not-found error: Delete still makes exactly one
call and reports an error rather than tolerating the absent entry. -/
theorem C9_delete_single_fatal_witness :
    (resourceAwsSsmParameterDelete "/a/b" (.error notFoundErr)).2 = 1 ∧
    ((.error notFoundErr : Except GoErr Unit) = .ok () →
       (resourceAwsSsmParameterDelete "/a/b" (.error notFoundErr)).1 = .ok ()) ∧
    ((resourceAwsSsmParameterDelete "/a/b" (.error notFoundErr)).1 =
       .error (.plain ("error deleting SSM Parameter (/a/b): " ++ goErrMsg notFoundErr))) :=
  C9_delete_single_fatal "/a/b" (.error notFoundErr) notFoundErr

theorem putFinish_snd (r : PutRecord) (env : PutEnv) (calls : List PutPayload) :
    (putFinish r env calls).2 = calls := by
  unfold putFinish
  cases putTagPhase r env <;> rfl

theorem put_calls_eq (r : PutRecord) (env : PutEnv) :
    (resourceAwsSsmParameterPut r env).2 =
      match env.decodeResult with
      | .error _ => []
      | .ok _ =>
        match kmsDecrypt env.decryptResult with
        | .error _ => []
        | .ok pt =>
          match env.putFirst with
          | .error e =>
            if isAWSErr e "ValidationException" "Tier is not supported" then
              [mkPutPayload r pt, { mkPutPayload r pt with tier := none }]
            else [mkPutPayload r pt]
          | .ok _ => [mkPutPayload r pt] := by
  unfold resourceAwsSsmParameterPut
  cases env.decodeResult with
  | error e => rfl
  | ok bytes =>
    cases kmsDecrypt env.decryptResult with
    | error e => rfl
    | ok pt =>
      cases env.putFirst with
      | ok u => exact putFinish_snd r env [mkPutPayload r pt]
      | error e =>
        by_cases hc : isAWSErr e "ValidationException" "Tier is not supported" = true
        · simp only [hc, if_true]
          cases env.putRetryResult with
          | ok u2 => exact putFinish_snd r env _
          | error e2 => rfl
        · simp only [Bool.not_eq_true] at hc
          simp only [hc, Bool.false_eq_true, if_false]

theorem put_payload_overwrite (r : PutRecord) (env : PutEnv) (p : PutPayload)
    (h : p ∈ (resourceAwsSsmParameterPut r env).2) :
    p.overwrite = shouldUpdateSsmParameter r.overwrite r.isNew := by
  rw [put_calls_eq] at h
  cases hdec : env.decodeResult with
  | error e =>
    rw [hdec] at h
    simp at h
  | ok bytes =>
    rw [hdec] at h
    cases hkms : kmsDecrypt env.decryptResult with
    | error e =>
      rw [hkms] at h
      simp at h
    | ok pt =>
      rw [hkms] at h
      cases hpf : env.putFirst with
      | ok u =>
        rw [hpf] at h
        simp at h
        subst h
        rfl
      | error e =>
        rw [hpf] at h
        by_cases hc : isAWSErr e "ValidationException" "Tier is not supported" = true
        · simp [hc] at h
          rcases h with h | h <;> subst h <;> rfl
        · simp only [Bool.not_eq_true] at hc
          simp [hc] at h
          subst h
          rfl

/-- Claim C2: every PutParameter payload a Put invocation sends carries the
effective overwrite flag: the caller's explicitly set value when one was
set, otherwise false for a brand-new record and true for an
already-managed one. -/
theorem C2_put_overwrite (r : PutRecord) (env : PutEnv) (p : PutPayload)
    (h : p ∈ (resourceAwsSsmParameterPut r env).2) :
    (∀ v, r.overwrite = some v → p.overwrite = v) ∧
    (r.overwrite = none → r.isNew = true → p.overwrite = false) ∧
    (r.overwrite = none → r.isNew = false → p.overwrite = true) := by
  have hp := put_payload_overwrite r env p h
  refine ⟨?_, ?_, ?_⟩
  · intro v hv
    rw [hp, hv]
    rfl
  · intro h1 h2
    rw [hp, h1, h2]
    rfl
  · intro h1 h2
    rw [hp, h1, h2]
    rfl

/-- Witness for C2: the payload a Put of an already-managed record with no
explicit overwrite preference sends has overwrite = true. -/
theorem C2_put_overwrite_witness : (mkPutPayload rC2 "pw").overwrite = true :=
  (C2_put_overwrite rC2 envPutHappy (mkPutPayload rC2 "pw") (by decide)).2.2 rfl rfl

theorem lookupA_eq_none (l : List (String × α)) (k : String)
    (h : containsKeyA l k = false) : lookupA l k = none := by
  induction l with
  | nil => rfl
  | cons kv rest ih =>
    simp only [containsKeyA, Bool.or_eq_false_iff] at h
    simp only [lookupA, h.1, Bool.false_eq_true, if_false]
    exact ih h.2

theorem containsKeyA_filter (p : String × α → Bool) (l : List (String × α)) (k : String)
    (h : containsKeyA l k = false) : containsKeyA (l.filter p) k = false := by
  induction l with
  | nil => rfl
  | cons kv rest ih =>
    simp only [containsKeyA, Bool.or_eq_false_iff] at h
    rw [List.filter_cons]
    by_cases hp : p kv = true
    · simp only [hp, if_true, containsKeyA, h.1, Bool.false_or]
      exact ih h.2
    · simp only [Bool.not_eq_true] at hp
      simp only [hp, Bool.false_eq_true, if_false]
      exact ih h.2

theorem containsKeyA_of_lookup (l : List (String × α)) (k : String) (v : α)
    (h : lookupA l k = some v) : containsKeyA l k = true := by
  induction l with
  | nil => exact absurd h (by simp [lookupA])
  | cons kv rest ih =>
    simp only [lookupA] at h
    simp only [containsKeyA]
    by_cases hk : (kv.1 == k) = true
    · rw [hk, Bool.true_or]
    · simp only [Bool.not_eq_true] at hk
      rw [hk] at h
      simp only [Bool.false_eq_true, if_false] at h
      rw [hk, Bool.false_or]
      exact ih h

theorem removed_lookup (old new : KeyValueTags) (k : String) :
    lookupA (KeyValueTags.Removed old new) k =
      if containsKeyA new k then none else lookupA old k := by
  induction old with
  | nil =>
    simp only [KeyValueTags.Removed, List.filter_nil, lookupA]
    cases containsKeyA new k <;> simp
  | cons kv rest ih =>
    simp only [KeyValueTags.Removed, List.filter_cons] at ih ⊢
    by_cases hk : (kv.1 == k) = true
    · have hkk : kv.1 = k := by simpa using hk
      subst hkk
      by_cases hc : containsKeyA new kv.1 = true
      · simp only [hc, Bool.not_true, Bool.false_eq_true, if_false, if_true]
        simpa [hc] using ih
      · simp only [Bool.not_eq_true] at hc
        simp [hc, lookupA]
    · simp only [Bool.not_eq_true] at hk
      by_cases hc : containsKeyA new kv.1 = true
      · simp only [hc, Bool.not_true, Bool.false_eq_true, if_false]
        rw [ih]
        cases hck : containsKeyA new k <;> simp [lookupA, hk]
      · simp only [Bool.not_eq_true] at hc
        simp only [hc, Bool.not_false, if_true, lookupA, hk, Bool.false_eq_true, if_false]
        exact ih

theorem updated_lookup (old new : KeyValueTags) (k : String) (h : nodupKeysB new = true) :
    lookupA (KeyValueTags.Updated old new) k =
      match lookupA new k with
      | none => none
      | some v =>
        match lookupA old k with
        | none => some v
        | some ov => if tagDataEqual ov v then none else some v := by
  induction new with
  | nil => simp [KeyValueTags.Updated, lookupA]
  | cons kv rest ih =>
    simp only [nodupKeysB, Bool.and_eq_true, Bool.not_eq_true'] at h
    obtain ⟨hnc, hnd⟩ := h
    simp only [KeyValueTags.Updated, List.filter_cons] at ih ⊢
    by_cases hk : (kv.1 == k) = true
    · have hkk : kv.1 = k := by simpa using hk
      subst hkk
      cases ho : lookupA old kv.1 with
      | none => simp [ho, lookupA]
      | some ov =>
        by_cases he : tagDataEqual ov kv.2 = true
        · have h1 : containsKeyA (rest.filter fun kv2 =>
              match lookupA old kv2.1 with
              | none => true
              | some oldV => !(tagDataEqual oldV kv2.2)) kv.1 = false :=
            containsKeyA_filter _ rest kv.1 hnc
          simp [ho, he, lookupA, lookupA_eq_none _ _ h1]
        · simp only [Bool.not_eq_true] at he
          simp [ho, he, lookupA]
    · simp only [Bool.not_eq_true] at hk
      by_cases hp : (match lookupA old kv.1 with
          | none => true
          | some oldV => !(tagDataEqual oldV kv.2)) = true
      · simp only [hp, if_true, lookupA, hk, Bool.false_eq_true, if_false]
        exact ih hnd
      · simp only [Bool.not_eq_true] at hp
        simp only [hp, Bool.false_eq_true, if_false, lookupA, hk]
        exact ih hnd

/-- Claim C6: Removed(old, new) binds exactly the keys present in old and
absent from new, to old's values; Updated(old, new) binds exactly the keys
of new that are absent from old, plus keys present in both whose TagData
fails the three-group equality; keys whose TagData is equal in all three
attribute groups appear in neither result. -/
theorem C6_tag_set_diff (old new : KeyValueTags) (k : String)
    (_h1 : nodupKeysB old = true) (h2 : nodupKeysB new = true) :
    (lookupA (KeyValueTags.Removed old new) k =
       if containsKeyA new k then none else lookupA old k) ∧
    (lookupA (KeyValueTags.Updated old new) k =
       match lookupA new k with
       | none => none
       | some v =>
         match lookupA old k with
         | none => some v
         | some ov => if tagDataEqual ov v then none else some v) ∧
    (∀ ov v, lookupA old k = some ov → lookupA new k = some v →
       tagDataEqual ov v = true →
       lookupA (KeyValueTags.Removed old new) k = none ∧
       lookupA (KeyValueTags.Updated old new) k = none) := by
  refine ⟨removed_lookup old new k, updated_lookup old new k h2, ?_⟩
  intro ov v hov hv he
  constructor
  · rw [removed_lookup, containsKeyA_of_lookup new k v hv]
    simp
  · rw [updated_lookup old new k h2, hv, hov]
    simp [he]

/-- Witness for C6 on concrete maps at the key "a", present in both with
TagData equal in all three groups: it is excluded from both results. -/
theorem C6_tag_set_diff_witness :
    lookupA (KeyValueTags.Removed oldC6 newC6) "a" = none ∧
    lookupA (KeyValueTags.Updated oldC6 newC6) "a" = none :=
  (C6_tag_set_diff oldC6 newC6 "a" (by decide) (by decide)).2.2
    (some ⟨[], [], some "x"⟩) (some ⟨[], [], some "x"⟩) (by decide) (by decide) (by decide)

theorem containsKeyA_of_mem {α : Type} (l : List (String × α)) (kv : String × α)
    (hm : kv ∈ l) : containsKeyA l kv.1 = true := by
  induction l with
  | nil => cases hm
  | cons hd tl ih =>
    rcases List.mem_cons.mp hm with h | h
    · subst h
      simp [containsKeyA]
    · simp [containsKeyA, ih h]

theorem lookupA_self_of_mem {α : Type} (l : List (String × α)) (h : nodupKeysB l = true)
    (kv : String × α) (hm : kv ∈ l) : lookupA l kv.1 = some kv.2 := by
  induction l with
  | nil => cases hm
  | cons hd tl ih =>
    simp only [nodupKeysB, Bool.and_eq_true, Bool.not_eq_true'] at h
    rcases List.mem_cons.mp hm with h1 | h1
    · subst h1
      simp [lookupA]
    · have hne : (hd.1 == kv.1) = false := by
        by_contra hcon
        simp only [Bool.not_eq_false, beq_iff_eq] at hcon
        have := containsKeyA_of_mem tl kv h1
        rw [← hcon] at this
        rw [this] at h
        exact Bool.noConfusion h.1
      simp only [lookupA, hne, Bool.false_eq_true, if_false]
      exact ih h.2 h1

theorem subMapA_self {α : Type} [DecidableEq α] (m : List (String × α))
    (h : nodupKeysB m = true) : subMapA m m = true := by
  rw [subMapA, List.all_eq_true]
  intro kv hm
  rw [lookupA_self_of_mem m h kv hm]
  simp

theorem tagDataEqual_refl (o : Option TagData)
    (h : (match o with
          | none => true
          | some td => nodupKeysB td.AdditionalBoolFields &&
                       nodupKeysB td.AdditionalStringFields) = true) :
    tagDataEqual o o = true := by
  cases o with
  | none => rfl
  | some td =>
    simp only [Bool.and_eq_true] at h
    simp [tagDataEqual, tagDataEqualCore, mapEqualA, subMapA_self _ h.1, subMapA_self _ h.2]

theorem filterA_eq_nil {α : Type} (p : String × α → Bool) (l : List (String × α))
    (h : ∀ kv ∈ l, p kv = false) : l.filter p = [] := by
  induction l with
  | nil => rfl
  | cons hd tl ih =>
    rw [List.filter_cons, h hd (List.mem_cons_self hd tl), if_neg (by simp)]
    exact ih fun kv hm => h kv (List.mem_cons_of_mem hd hm)

theorem removed_self (l : KeyValueTags) : KeyValueTags.Removed l l = [] := by
  apply filterA_eq_nil
  intro kv hm
  simp [containsKeyA_of_mem l kv hm]

theorem updated_self (l : KeyValueTags) (h : wfTagsB l = true) :
    KeyValueTags.Updated l l = [] := by
  simp only [wfTagsB, Bool.and_eq_true, List.all_eq_true] at h
  apply filterA_eq_nil
  intro kv hm
  rw [lookupA_self_of_mem l h.1 kv hm]
  simp only []
  rw [tagDataEqual_refl kv.2 (h.2 kv hm)]
  rfl

/-- Claim C10: with the remote tag calls succeeding, SsmUpdateTags issues
the remove-tags call exactly when Removed(old, new) is non-empty and the
add-tags call exactly when Updated(old, new) is non-empty, each emptiness
test preceding the reserved-prefix stripping applied to the call argument;
and on equal well-formed tag maps it issues no remote calls and returns
success. -/
theorem C10_update_tags_calls (identifier : String) (old new : KeyValueTags)
    (env : TagUpdateEnv) (h1 : env.removeResult = .ok ()) (h2 : env.addResult = .ok ()) :
    ((SsmUpdateTags identifier old new env).2.removeCalls =
       if (KeyValueTags.Removed old new).length > 0 then
         [KeyValueTags.Keys (KeyValueTags.IgnoreAws (KeyValueTags.Removed old new))]
       else []) ∧
    ((SsmUpdateTags identifier old new env).2.addCalls =
       if (KeyValueTags.Updated old new).length > 0 then
         [KeyValueTags.SsmTags (KeyValueTags.IgnoreAws (KeyValueTags.Updated old new))]
       else []) ∧
    (old = new → wfTagsB old = true →
       SsmUpdateTags identifier old new env = (.ok (), ⟨[], []⟩)) := by
  refine ⟨?_, ?_, ?_⟩
  · by_cases hr : (KeyValueTags.Removed old new).length > 0 <;>
      by_cases hu : (KeyValueTags.Updated old new).length > 0 <;>
      simp [SsmUpdateTags, h1, h2, hr, hu]
  · by_cases hr : (KeyValueTags.Removed old new).length > 0 <;>
      by_cases hu : (KeyValueTags.Updated old new).length > 0 <;>
      simp [SsmUpdateTags, h1, h2, hr, hu]
  · intro heq hwf
    subst heq
    simp [SsmUpdateTags, removed_self old, updated_self old hwf]

/-- Witness for C10 on equal tag maps: no remote tag call is issued and the
update reports success. -/
theorem C10_update_tags_calls_witness :
    SsmUpdateTags "/a/b" tagsC10 tagsC10 happyTagEnv = (.ok (), ⟨[], []⟩) :=
  (C10_update_tags_calls "/a/b" tagsC10 tagsC10 happyTagEnv rfl rfl).2.2 rfl (by decide)

theorem read_observed_shape (inp : ReadInput) (env : ReadEnv) (p : Param) (bytes : List Nat)
    (pt : String) (obs : ObservedState)
    (hf : (resolvedFetch inp env).1 = .ok p)
    (hd : env.decodeResult = .ok bytes)
    (hk : env.decryptResult = .ok pt)
    (ho : (resourceAwsSsmParameterRead inp env).1 = .ok (.observed obs)) :
    obs.encrypted_value = comparatorValue inp.encrypted_value pt p.value := by
  simp only [resourceAwsSsmParameterRead] at ho
  rw [hf] at ho
  simp only [processFetch, hd, hk, kmsDecrypt] at ho
  cases hdr : env.describeResult with
  | error e =>
    rw [hdr] at ho
    simp at ho
  | ok resp =>
    rw [hdr] at ho
    simp only [] at ho
    cases hdh : describeHead resp with
    | none =>
      rw [hdh] at ho
      simp at ho
    | some detail =>
      rw [hdh] at ho
      simp only [] at ho
      cases hlt : env.listTagsResult with
      | error e =>
        rw [hlt] at ho
        simp at ho
      | ok tags =>
        rw [hlt] at ho
        simp only [Except.ok.injEq, ReadOutcome.observed.injEq] at ho
        rw [← ho]

/-- Claim C1: on a Read whose fetch resolved and whose declared ciphertext
decoded and decrypted successfully, the observed encrypted_value equals the
declared ciphertext when the decrypted plaintext matches the remote value,
equals the fixed sentinel "Outdated sensitive value" when it does not, and
in every case is one of those two strings — never the raw plaintext. -/
theorem C1_comparator_preserves_or_sentinel (inp : ReadInput) (env : ReadEnv) (p : Param)
    (bytes : List Nat) (pt : String) (obs : ObservedState)
    (hf : (resolvedFetch inp env).1 = .ok p)
    (hd : env.decodeResult = .ok bytes)
    (hk : env.decryptResult = .ok pt)
    (ho : (resourceAwsSsmParameterRead inp env).1 = .ok (.observed obs)) :
    (pt = p.value → obs.encrypted_value = inp.encrypted_value) ∧
    (pt ≠ p.value → obs.encrypted_value = "Outdated sensitive value") ∧
    (obs.encrypted_value = inp.encrypted_value ∨
     obs.encrypted_value = "Outdated sensitive value") := by
  have h := read_observed_shape inp env p bytes pt obs hf hd hk ho
  unfold comparatorValue at h
  by_cases hv : pt = p.value
  · rw [if_pos (by simpa [beq_iff_eq] using hv)] at h
    exact ⟨fun _ => h, fun hne => absurd hv hne, .inl h⟩
  · rw [if_neg (by simpa [beq_iff_eq] using hv)] at h
    exact ⟨fun he => absurd he hv, fun _ => h, .inr h⟩

/-- Witness for C1: on the concrete matching run, the observed value is the
declared ciphertext unchanged. -/
theorem C1_comparator_witness : obsC1.encrypted_value = inpC1.encrypted_value :=
  (C1_comparator_preserves_or_sentinel inpC1 happyReadEnv sampleParam [1, 2, 3] "pw" obsC1
    rfl rfl rfl rfl).1 rfl

/-- Counterexample for C4: on a concrete Read where the decryption service
fails (access denied), Read returns a hard error rather than succeeding
with the sentinel observed value. -/
theorem C4_counterexample :
    envC4.decryptResult = Except.error (GoErr.aws ⟨"AccessDeniedException", "access denied"⟩) ∧
    (resourceAwsSsmParameterRead inpC4 envC4).1 =
      Except.error (.plain "Error decrypting with KMS: AccessDeniedException: access denied") :=
  ⟨rfl, rfl⟩

/-- Amended C4: a failure of the decryption service is fatal on both paths.
Read returns a hard error (the sentinel is used only when decryption
succeeds with a plaintext differing from the remote value), and Put aborts
with an error before any remote write is issued. -/
theorem C4_decrypt_failure_fatal (inp : ReadInput) (env : ReadEnv) (p : Param)
    (bytes : List Nat) (e : GoErr) (r : PutRecord) (penv : PutEnv)
    (bytes2 : List Nat) (e2 : GoErr)
    (hf : (resolvedFetch inp env).1 = .ok p)
    (hd : env.decodeResult = .ok bytes)
    (hk : env.decryptResult = .error e)
    (hd2 : penv.decodeResult = .ok bytes2)
    (hk2 : penv.decryptResult = .error e2) :
    (resourceAwsSsmParameterRead inp env).1 =
      .error (.plain ("Error decrypting with KMS: " ++ goErrMsg e)) ∧
    resourceAwsSsmParameterPut r penv =
      (.error (.plain ("Error decrypting with KMS: " ++ goErrMsg e2)), []) := by
  constructor
  · simp only [resourceAwsSsmParameterRead]
    rw [hf]
    simp [processFetch, hd, hk, kmsDecrypt, goErrMsg]
  · simp [resourceAwsSsmParameterPut, hd2, hk2, kmsDecrypt, goErrMsg]

/-- Witness for the amended C4 at concrete inputs: Read hard-fails and Put
aborts with no PutParameter call. -/
theorem C4_decrypt_failure_fatal_witness :
    (resourceAwsSsmParameterRead inpC4 envC4).1 =
      .error (.plain ("Error decrypting with KMS: " ++
        goErrMsg (.aws ⟨"AccessDeniedException", "access denied"⟩))) ∧
    resourceAwsSsmParameterPut rC2 penvC4 =
      (.error (.plain ("Error decrypting with KMS: " ++
        goErrMsg (.aws ⟨"AccessDeniedException", "access denied"⟩))), []) :=
  C4_decrypt_failure_fatal inpC4 envC4 sampleParam [1, 2, 3]
    (.aws ⟨"AccessDeniedException", "access denied"⟩) rC2 penvC4 [1]
    (.aws ⟨"AccessDeniedException", "access denied"⟩) rfl rfl rfl rfl rfl

/-- Claim C5: with ciphertext decoding and decryption succeeding, a first
remote write failing with the ValidationException containing "Tier is not
supported" is retried exactly once with no tier at all (two payloads, the
second tier-free and otherwise identical), and Put reports the success of
the trailing read when that retry and the tag phase succeed; a first write
failing with any other error is not retried (one payload) and aborts Put
with an error. -/
theorem C5_tier_unsupported_retry (r : PutRecord) (env : PutEnv) (bytes : List Nat)
    (pt : String) (h1 : env.decodeResult = .ok bytes) (h2 : env.decryptResult = .ok pt) :
    (∀ e, env.putFirst = .error e →
       isAWSErr e "ValidationException" "Tier is not supported" = true →
       (resourceAwsSsmParameterPut r env).2 =
         [mkPutPayload r pt, { mkPutPayload r pt with tier := none }] ∧
       (env.putRetryResult = .ok () → r.tags_change = none →
          ∀ res, (resourceAwsSsmParameterRead (putReadInput r) env.readEnv).1 = .ok res →
            (resourceAwsSsmParameterPut r env).1 = .ok res)) ∧
    (∀ e, env.putFirst = .error e →
       isAWSErr e "ValidationException" "Tier is not supported" = false →
       (resourceAwsSsmParameterPut r env).2 = [mkPutPayload r pt] ∧
       (resourceAwsSsmParameterPut r env).1 =
         .error (.plain ("error creating SSM parameter: " ++ goErrMsg e))) := by
  constructor
  · intro e he hc
    constructor
    · rw [put_calls_eq, h1]
      simp only [h2, kmsDecrypt, he, hc, if_true]
    · intro hretry htags res hread
      simp only [resourceAwsSsmParameterPut, h1, h2, kmsDecrypt, he, hc, if_true, hretry]
      simp only [putFinish, putTagPhase, htags]
      rw [hread]
  · intro e he hc
    constructor
    · rw [put_calls_eq, h1]
      simp [h2, kmsDecrypt, he, hc]
    · simp [resourceAwsSsmParameterPut, h1, h2, kmsDecrypt, he, hc]

/-- Witness for C5: on the concrete tier-rejected run, exactly two payloads
are sent — the second with no tier — and Put reports the trailing read's
success. -/
theorem C5_tier_unsupported_retry_witness :
    (resourceAwsSsmParameterPut rC2 envC5).2 =
      [mkPutPayload rC2 "pw", { mkPutPayload rC2 "pw" with tier := none }] ∧
    (resourceAwsSsmParameterPut rC2 envC5).1 = .ok (.observed obsC1) := by
  have h := (C5_tier_unsupported_retry rC2 envC5 [1] "pw" rfl rfl).1
    (.aws ⟨"ValidationException", "Tier is not supported"⟩) rfl (by decide)
  exact ⟨h.1, h.2 rfl rfl (.observed obsC1) rfl⟩

/-- Claim C7: a Read whose final fetch state is the not-found error on a
record that is not newly created clears the identity marker and returns
success with no data; a describe call with zero (or nil) matches does the
same; and a newly created record whose final fetch state is still
not-found makes Read return a fatal error. -/
theorem C7_notfound_tolerance (inp : ReadInput) (env : ReadEnv) :
    (∀ e n, resolvedFetch inp env = (.error e, n) →
       isAWSErr e ErrCodeParameterNotFound "" = true → inp.isNew = false →
       (resourceAwsSsmParameterRead inp env).1 = .ok .removedFromState) ∧
    (∀ p bytes pt resp, (resolvedFetch inp env).1 = .ok p →
       env.decodeResult = .ok bytes → env.decryptResult = .ok pt →
       env.describeResult = .ok resp → describeHead resp = none →
       (resourceAwsSsmParameterRead inp env).1 = .ok .removedFromState) ∧
    (∀ e n, resolvedFetch inp env = (.error e, n) →
       isAWSErr e ErrCodeParameterNotFound "" = true → inp.isNew = true →
       (resourceAwsSsmParameterRead inp env).1 =
         .error (.wrap ("error reading SSM Parameter (" ++ inp.id ++ ")") e)) := by
  refine ⟨?_, ?_, ?_⟩
  · intro e n hre hnf hnew
    have h1 : (resolvedFetch inp env).1 = .error e := by rw [hre]
    simp only [resourceAwsSsmParameterRead]
    rw [h1]
    simp [processFetch, hnf, hnew]
  · intro p bytes pt resp hf hd hk hdr hdh
    simp only [resourceAwsSsmParameterRead]
    rw [hf]
    simp only [processFetch, hd, hk, kmsDecrypt]
    rw [hdr]
    simp only []
    rw [hdh]
  · intro e n hre hnf hnew
    have h1 : (resolvedFetch inp env).1 = .error e := by rw [hre]
    simp only [resourceAwsSsmParameterRead]
    rw [h1]
    simp [processFetch, hnf, hnew]

/-- Witness for C7: a not-found Read of an already-managed record returns
success with the identity cleared. -/
theorem C7_notfound_tolerance_witness :
    (resourceAwsSsmParameterRead inpC1 envC7).1 = .ok .removedFromState :=
  (C7_notfound_tolerance inpC1 envC7).1 notFoundErr 1 rfl (by decide) rfl
